import Mathlib

/-!
Shallow embedding of the menuzy backend (FastAPI + PostgreSQL) core:
the authorization gate, review aggregation, nearby search, menu CRUD
validation, favorites, token-based identity resolution and login
response assembly.

Conventions of the embedding:
* Database tables are lists of rows; `SELECT ... WHERE p LIMIT 1`
  (`fetchone`) is `List.find?`, `SELECT ... WHERE p` is `List.filter`,
  `UPDATE ... WHERE p` is `List.map` guarded by `p`.
* A handler is a function from the database state (plus the request
  data) to `Except HTTPError result`; raising `HTTPException` is
  `.error`.  Because the connection context manager rolls back on any
  exception, an `.error` outcome carries no new state: no write is
  visible.  A successful handler returns the committed state.
* An unhandled exception (a Python `KeyError`, a rejected SQL
  statement) propagates out of the handler and is surfaced by the
  framework as a generic server failure; it is embedded as
  `.error ⟨500, "Internal Server Error"⟩`.
* Machine integers are `Int` (PostgreSQL ints never overflow here),
  SQL `DECIMAL` values are `ℚ`, SQL float trigonometry is over `ℝ`.
* Nullable columns are `Option`; Python truthiness of an optional int
  (`if restaurant_id:`) is `none`/`0` falsy.
-/

deriving instance DecidableEq for Except

namespace Menuzy

/-- The `HTTPException(status_code, detail)` pair raised by the handlers. -/
structure HTTPError where
  status_code : Nat
  detail : String
deriving DecidableEq, Repr

/-- A row of `users` (columns used by the embedded handlers).
`password_hash` is nullable: owner accounts provisioned by the super
admin are created without a password. -/
structure User where
  id : Int
  email : String
  password_hash : Option String
  full_name : String
  phone : Option String
  role : String
  is_active : Bool
  created_at : Int
deriving DecidableEq, Repr

/-- A row of `restaurants` (the schema's columns, timestamps elided).
`DECIMAL` columns (`latitude`, `longitude`, `rating`) are exact
decimals, hence `ℚ`; `owner_id` and `category_id` are nullable
foreign keys; `opening_hours JSONB` is kept as its serialized text. -/
structure Restaurant where
  id : Int
  name : String
  description : Option String
  address : String
  latitude : Option ℚ
  longitude : Option ℚ
  phone : Option String
  email : Option String
  category_id : Option Int
  owner_id : Option Int
  image_url : Option String
  opening_hours : Option String
  is_active : Bool
  rating : ℚ
  total_reviews : Int
deriving DecidableEq, Repr

/-- A row of `menu_categories`. -/
structure MenuCategory where
  id : Int
  restaurant_id : Int
  name : String
  display_order : Int
  is_active : Bool
deriving DecidableEq, Repr

/-- A row of `menu_items` (the inserted columns; `price` is stored as
the `json.dumps` string). -/
structure MenuItem where
  id : Int
  restaurant_id : Int
  menu_category_id : Int
  name : String
  description : Option String
  price : String
  image_url : Option String
  is_vegetarian : Bool
  is_vegan : Bool
  is_gluten_free : Bool
  ingredients : List String
  allergens : List String
  is_available : Bool
  display_order : Int
deriving DecidableEq, Repr

/-- A row of `reviews`; `UNIQUE(restaurant_id, user_id)` and
`CHECK (rating >= 1 AND rating <= 5)` are enforced by the schema. -/
structure Review where
  id : Int
  restaurant_id : Int
  user_id : Int
  rating : Int
  comment : Option String
deriving DecidableEq, Repr

/-- A row of `favorites`; `UNIQUE(user_id, restaurant_id)`. -/
structure Favorite where
  user_id : Int
  restaurant_id : Int
deriving DecidableEq, Repr

/-- The relational state: the tables touched by the embedded handlers. -/
structure DB where
  users : List User
  restaurants : List Restaurant
  menu_categories : List MenuCategory
  menu_items : List MenuItem
  reviews : List Review
  favorites : List Favorite
deriving DecidableEq, Repr

/-- Python truthiness of an optional integer argument:
`None` and `0` are falsy. -/
def int_truthy : Option Int → Bool
  | none => false
  | some n => n != 0

/-- Embedding of `verify_restaurant_admin` (src/routers/admin.py): role gate plus,
when a restaurant id is supplied and the caller is a
`restaurant_admin` (a `super_admin` skips it), a lookup of
`SELECT owner_id FROM restaurants WHERE id = %s`.  The token has
already been resolved to `user_id`/`user_role`.

The connection is opened with `cursor_factory=RealDictCursor`
(src/database/connection.py), so `cursor.fetchone()` yields a dict
keyed by column name.  When no row matches, `not restaurant`
short-circuits to the 403.  When a row exists, `restaurant[0]`
is a dict lookup with the integer key `0`, which raises `KeyError`
before the owner comparison can happen — for a mismatched owner and
for the owner alike — and the unhandled exception surfaces as a 500
server error. -/
def verify_restaurant_admin (db : DB) (user_id : Int) (user_role : String)
    (restaurant_id : Option Int) : Except HTTPError Int :=
  if !(user_role == "restaurant_admin" || user_role == "super_admin") then
    .error ⟨403, "Not authorized to access restaurant admin features"⟩
  else if int_truthy restaurant_id && user_role == "restaurant_admin" then
    match restaurant_id with
    | none => .ok user_id
    | some rid =>
      match db.restaurants.find? (fun r => r.id == rid) with
      | none => .error ⟨403, "Not authorized to manage this restaurant"⟩
      | some _ => .error ⟨500, "Internal Server Error"⟩
  else .ok user_id

/-- Request body `ReviewCreate` (src/models/schemas.py). -/
structure ReviewCreate where
  rating : Int
  comment : Option String
deriving DecidableEq, Repr

/-- The `SELECT AVG(rating) FROM reviews WHERE ...` aggregate over an already
filtered list, as exact rational arithmetic. -/
def avg_rating (rs : List Review) : ℚ :=
  (rs.map (fun rv => (rv.rating : ℚ))).sum / rs.length

/-- The effect of the `::DECIMAL(3,2)` cast on the (nonnegative)
average: rounding to two decimal places. -/
def round2 (q : ℚ) : ℚ := ((round (q * 100) : ℤ) : ℚ) / 100

/-- The `UPDATE restaurants SET rating = (SELECT AVG(rating) ...),
total_reviews = (SELECT COUNT(*) ...) WHERE id = %s` statement applied
to one row, where `reviews` is the post-insert table state
(src/routers/restaurants.py, add_review). -/
def recompute_rating (rid : Int) (reviews : List Review) (r : Restaurant) : Restaurant :=
  if r.id == rid then
    { r with
      rating := round2 (avg_rating (reviews.filter (fun rv => rv.restaurant_id == rid))),
      total_reviews := ((reviews.filter (fun rv => rv.restaurant_id == rid)).length : Int) }
  else r

/-- Embedding of `add_review` (src/routers/restaurants.py): active-restaurant
check, duplicate `(restaurant, user)` check (HTTP 400), the schema's
`CHECK (rating >= 1 AND rating <= 5)` on the insert, then the insert
and the rating/count recomputation committed as one unit of work.
`new_id` is the `SERIAL` id the insert returns; the `user_name` join
for the response body is elided (it does not touch state). -/
def add_review (db : DB) (restaurant_id user_id : Int) (review : ReviewCreate)
    (new_id : Int) : Except HTTPError (DB × Review) :=
  match db.restaurants.find? (fun r => r.id == restaurant_id && r.is_active) with
  | none => .error ⟨404, "Restaurant not found"⟩
  | some _ =>
    if (db.reviews.find? (fun rv =>
        rv.restaurant_id == restaurant_id && rv.user_id == user_id)).isSome then
      .error ⟨400, "You have already reviewed this restaurant"⟩
    else if review.rating < 1 ∨ 5 < review.rating then
      .error ⟨500, "reviews rating check constraint violated"⟩
    else
      let new_review : Review := ⟨new_id, restaurant_id, user_id, review.rating, review.comment⟩
      let reviews' := db.reviews ++ [new_review]
      .ok ({ db with
               reviews := reviews',
               restaurants := db.restaurants.map (recompute_rating restaurant_id reviews') },
           new_review)

/-- A sequence of review creations against one restaurant, each one a
full `add_review` unit of work; the sequence succeeds only when every
single creation does. -/
def add_review_seq (rid : Int) : DB → List (Int × ReviewCreate × Int) → Except HTTPError DB
  | db, [] => .ok db
  | db, (uid, rc, nid) :: rest =>
    match add_review db rid uid rc nid with
    | .error e => .error e
    | .ok (db', _) => add_review_seq rid db' rest

/-- Concrete scenario: one active restaurant (id 1, owner 5), no
reviews yet. -/
def c4_db : DB :=
  ⟨[], [⟨1, "R", none, "A", none, none, none, none, none, some 5, none, none, true, 0, 0⟩],
   [], [], [], []⟩

/-- Concrete scenario: users 7 and 8 review restaurant 1 with ratings
5 and 4. -/
def c4_entries : List (Int × ReviewCreate × Int) :=
  [(7, ⟨5, none⟩, 1), (8, ⟨4, none⟩, 2)]

/-- The state after the first review of the concrete scenario:
aggregate 5, count 1. -/
def c4_mid : DB :=
  ⟨[], [⟨1, "R", none, "A", none, none, none, none, none, some 5, none, none, true, 5, 1⟩],
   [], [], [⟨1, 1, 7, 5, none⟩], []⟩

/-- The state `add_review_seq` reaches from `c4_db` on `c4_entries`:
both reviews stored, aggregate 4.5, count 2. -/
def c4_result : DB :=
  ⟨[], [⟨1, "R", none, "A", none, none, none, none, none, some 5, none, none, true, 9/2, 2⟩],
   [], [], [⟨1, 1, 7, 5, none⟩, ⟨2, 1, 8, 4, none⟩], []⟩

/-- The restaurant row inside `c4_result`. -/
def c4_row : Restaurant :=
  ⟨1, "R", none, "A", none, none, none, none, none, some 5, none, none, true, 9/2, 2⟩

/-- SQL `radians(x)`: degrees to radians. -/
noncomputable def radians (x : ℝ) : ℝ := x * Real.pi / 180

/-- The computed `distance` column of the nearby-search query
(src/routers/restaurants.py, get_nearby_restaurants):
`6371 * acos(cos(radians(lat)) * cos(radians(r.latitude)) *
cos(radians(r.longitude) - radians(lon)) + sin(radians(lat)) *
sin(radians(r.latitude)))`, over ideal reals. -/
noncomputable def sql_distance (lat lon rlat rlon : ℝ) : ℝ :=
  6371 * Real.arccos (Real.cos (radians lat) * Real.cos (radians rlat) *
    Real.cos (radians rlon - radians lon) +
    Real.sin (radians lat) * Real.sin (radians rlat))

/-- Modelled from the spec: the haversine great-circle distance with
Earth radius 6371 km, as §4.4 words the nearby-search distance.  Used
to compare the SQL's spherical-law-of-cosines expression against the
spec's attribution. -/
noncomputable def spec_haversine_distance (lat lon rlat rlon : ℝ) : ℝ :=
  2 * 6371 * Real.arcsin (Real.sqrt (
    Real.sin ((radians rlat - radians lat) / 2) ^ 2 +
    Real.cos (radians lat) * Real.cos (radians rlat) *
      Real.sin ((radians rlon - radians lon) / 2) ^ 2))

/-- The optional `AND r.category_id = %s` clause: appended only when
the `category_id` query parameter is truthy (`None` and `0` are
falsy). -/
def category_filter_matches (category_id : Option Int) (r : Restaurant) : Bool :=
  match category_id with
  | none => true
  | some cid => if cid == 0 then true else r.category_id == some cid

/-- The `FROM`/`WHERE` part of the nearby-search query: rows that are
active, have both coordinates and pass the optional category filter,
each paired with its computed `distance` column. -/
noncomputable def nearby_with_distance (db : DB) (latitude longitude : ℝ)
    (category_id : Option Int) : List (Restaurant × ℝ) :=
  db.restaurants.filterMap (fun r =>
    match r.latitude, r.longitude with
    | some rlat, some rlon =>
      if r.is_active && category_filter_matches category_id r then
        some (r, sql_distance latitude longitude ((rlat : ℚ) : ℝ) ((rlon : ℚ) : ℝ))
      else none
    | _, _ => none)

/-- The result set the nearby-search SQL text describes — the rows of
`nearby_with_distance` restricted by `HAVING distance <= radius`,
then `ORDER BY distance` and `LIMIT limit` — read as the author
intended, with the `distance` output alias visible in `HAVING`.
PostgreSQL does not accept that reading (see
`get_nearby_restaurants`); this definition captures the intended
query for comparison against the spec. -/
noncomputable def intended_nearby_query (db : DB) (latitude longitude radius : ℝ)
    (category_id : Option Int) (limit : Nat) : List (Restaurant × ℝ) :=
  (((nearby_with_distance db latitude longitude category_id).filter
      (fun p => decide (p.2 ≤ radius))).mergeSort
    (fun a b => decide (a.2 ≤ b.2))).take limit

/-- Embedding of `get_nearby_restaurants` (src/routers/restaurants.py)
as executed: the built query ends `HAVING distance <= %s` with no
`GROUP BY`, but PostgreSQL does not allow a SELECT output alias in
`HAVING` (`distance` is not a column of the joined tables), so
`cursor.execute` raises `UndefinedColumn` on every call — with or
without the category filter — and the unhandled exception surfaces as
a 500 server error.  No row list is ever produced. -/
def get_nearby_restaurants (db : DB) (latitude longitude radius : ℝ)
    (category_id : Option Int) (limit : Nat) :
    Except HTTPError (List (Restaurant × ℝ)) :=
  .error ⟨500, "Internal Server Error"⟩

/-- Request body `MenuItemCreate` (src/models/schemas.py); `price`
is kept as its `json.dumps` serialization, which is what the insert
stores. -/
structure MenuItemCreate where
  menu_category_id : Int
  name : String
  description : Option String
  price : String
  image_url : Option String
  is_vegetarian : Bool
  is_vegan : Bool
  is_gluten_free : Bool
  ingredients : List String
  allergens : List String
  display_order : Int
deriving DecidableEq, Repr

/-- Embedding of `create_menu_item` (src/routers/admin.py): role gate, resolve the
caller's restaurant by `owner_id`, validate that the target menu
category belongs to that same restaurant (HTTP 400 otherwise), then
insert.  `new_id` is the SERIAL id; `is_available` takes its schema
default TRUE; the category-name join for the response is elided. -/
def create_menu_item (db : DB) (user_id : Int) (user_role : String)
    (menu_item : MenuItemCreate) (new_id : Int) : Except HTTPError (DB × MenuItem) :=
  match verify_restaurant_admin db user_id user_role none with
  | .error e => .error e
  | .ok uid =>
    match db.restaurants.find? (fun r => r.owner_id == some uid) with
    | none => .error ⟨404, "No restaurant found"⟩
    | some restaurant =>
      match db.menu_categories.find? (fun mc =>
          mc.id == menu_item.menu_category_id && mc.restaurant_id == restaurant.id) with
      | none => .error ⟨400, "Invalid menu category"⟩
      | some _ =>
        let item : MenuItem :=
          ⟨new_id, restaurant.id, menu_item.menu_category_id, menu_item.name,
           menu_item.description, menu_item.price, menu_item.image_url,
           menu_item.is_vegetarian, menu_item.is_vegan, menu_item.is_gluten_free,
           menu_item.ingredients, menu_item.allergens, true, menu_item.display_order⟩
        .ok ({ db with menu_items := db.menu_items ++ [item] }, item)

/-- Request body `MenuItemUpdate` (src/models/schemas.py): every
field optional; an explicit null and an omitted field are
indistinguishable (both are skipped by the dynamic `SET` builder). -/
structure MenuItemUpdate where
  menu_category_id : Option Int
  name : Option String
  description : Option String
  price : Option String
  image_url : Option String
  is_vegetarian : Option Bool
  is_vegan : Option Bool
  is_gluten_free : Option Bool
  ingredients : Option (List String)
  allergens : Option (List String)
  is_available : Option Bool
  display_order : Option Int
deriving DecidableEq, Repr

/-- One entry of a dynamically built `SET` list: present exactly when
the request supplied a non-null value for the field. -/
def opt_set_clause {α : Type} (field : String) : Option α → List String
  | some _ => [field]
  | none => []

/-- The dynamic `SET` field list of `update_menu_item`. -/
def menu_item_update_fields (u : MenuItemUpdate) : List String :=
  opt_set_clause "menu_category_id" u.menu_category_id ++
  opt_set_clause "name" u.name ++
  opt_set_clause "description" u.description ++
  opt_set_clause "price" u.price ++
  opt_set_clause "image_url" u.image_url ++
  opt_set_clause "is_vegetarian" u.is_vegetarian ++
  opt_set_clause "is_vegan" u.is_vegan ++
  opt_set_clause "is_gluten_free" u.is_gluten_free ++
  opt_set_clause "ingredients" u.ingredients ++
  opt_set_clause "allergens" u.allergens ++
  opt_set_clause "is_available" u.is_available ++
  opt_set_clause "display_order" u.display_order

/-- A supplied value overwrites a nullable column; an absent one
leaves it untouched. -/
def upd_opt {α : Type} : Option α → Option α → Option α
  | some v, _ => some v
  | none, old => old

/-- The row produced by `UPDATE menu_items SET <present fields> WHERE
id = %s RETURNING *` for one row. -/
def apply_menu_item_update (u : MenuItemUpdate) (it : MenuItem) : MenuItem :=
  { it with
    menu_category_id := u.menu_category_id.getD it.menu_category_id,
    name := u.name.getD it.name,
    description := upd_opt u.description it.description,
    price := u.price.getD it.price,
    image_url := upd_opt u.image_url it.image_url,
    is_vegetarian := u.is_vegetarian.getD it.is_vegetarian,
    is_vegan := u.is_vegan.getD it.is_vegan,
    is_gluten_free := u.is_gluten_free.getD it.is_gluten_free,
    ingredients := u.ingredients.getD it.ingredients,
    allergens := u.allergens.getD it.allergens,
    is_available := u.is_available.getD it.is_available,
    display_order := u.display_order.getD it.display_order }

/-- Embedding of `update_menu_item` (src/routers/admin.py): role gate, resolve the
caller's restaurant, require the item to belong to it, reject an
empty dynamic field list with HTTP 400, else run the update; the
category-name join for the response is elided. -/
def update_menu_item (db : DB) (user_id : Int) (user_role : String) (item_id : Int)
    (menu_item : MenuItemUpdate) : Except HTTPError (DB × MenuItem) :=
  match verify_restaurant_admin db user_id user_role none with
  | .error e => .error e
  | .ok uid =>
    match db.restaurants.find? (fun r => r.owner_id == some uid) with
    | none => .error ⟨404, "No restaurant found"⟩
    | some restaurant =>
      match db.menu_items.find? (fun it =>
          it.id == item_id && it.restaurant_id == restaurant.id) with
      | none => .error ⟨404, "Menu item not found"⟩
      | some existing_item =>
        if menu_item_update_fields menu_item = [] then
          .error ⟨400, "No fields to update"⟩
        else
          .ok ({ db with menu_items := db.menu_items.map (fun it =>
                   if it.id == item_id then apply_menu_item_update menu_item it else it) },
               apply_menu_item_update menu_item existing_item)

/-- Request body `RestaurantUpdate` (src/models/schemas.py). -/
structure RestaurantUpdate where
  name : Option String
  description : Option String
  address : Option String
  latitude : Option ℚ
  longitude : Option ℚ
  phone : Option String
  email : Option String
  category_id : Option Int
  image_url : Option String
  opening_hours : Option String
deriving DecidableEq, Repr

/-- The dynamic `SET` field list of the super-admin
`update_restaurant`. -/
def restaurant_update_fields (u : RestaurantUpdate) : List String :=
  opt_set_clause "name" u.name ++
  opt_set_clause "description" u.description ++
  opt_set_clause "address" u.address ++
  opt_set_clause "latitude" u.latitude ++
  opt_set_clause "longitude" u.longitude ++
  opt_set_clause "phone" u.phone ++
  opt_set_clause "email" u.email ++
  opt_set_clause "category_id" u.category_id ++
  opt_set_clause "image_url" u.image_url ++
  opt_set_clause "opening_hours" u.opening_hours

/-- The row produced by `UPDATE restaurants SET <present fields>
WHERE id = %s RETURNING *` for one row. -/
def apply_restaurant_update (u : RestaurantUpdate) (r : Restaurant) : Restaurant :=
  { r with
    name := u.name.getD r.name,
    description := upd_opt u.description r.description,
    address := u.address.getD r.address,
    latitude := upd_opt u.latitude r.latitude,
    longitude := upd_opt u.longitude r.longitude,
    phone := upd_opt u.phone r.phone,
    email := upd_opt u.email r.email,
    category_id := upd_opt u.category_id r.category_id,
    image_url := upd_opt u.image_url r.image_url,
    opening_hours := upd_opt u.opening_hours r.opening_hours }

/-- Embedding of `verify_super_admin` (src/routers/superadmin.py), on the resolved
role. -/
def verify_super_admin (user_role : String) : Except HTTPError Unit :=
  if user_role != "super_admin" then
    .error ⟨403, "Super admin access required"⟩
  else .ok ()

/-- Embedding of `update_restaurant` (src/routers/superadmin.py): super-admin
gate, reject an empty dynamic field list with HTTP 400 before
touching the row, run the update, HTTP 404 when no row matched; the
category-name join for the response is elided. -/
def update_restaurant (db : DB) (user_role : String) (restaurant_id : Int)
    (restaurant_data : RestaurantUpdate) : Except HTTPError (DB × Restaurant) :=
  match verify_super_admin user_role with
  | .error e => .error e
  | .ok _ =>
    if restaurant_update_fields restaurant_data = [] then
      .error ⟨400, "No fields to update"⟩
    else
      match db.restaurants.find? (fun r => r.id == restaurant_id) with
      | none => .error ⟨404, "Restaurant not found"⟩
      | some r =>
        .ok ({ db with restaurants := db.restaurants.map (fun x =>
                 if x.id == restaurant_id then apply_restaurant_update restaurant_data x
                 else x) },
             apply_restaurant_update restaurant_data r)

/-- Embedding of `add_to_favorites` (src/routers/restaurants.py): active-restaurant
check, then `INSERT ... ON CONFLICT (user_id, restaurant_id) DO
NOTHING` — an insert-if-absent — and an unconditional success
message. -/
def add_to_favorites (db : DB) (user_id restaurant_id : Int) :
    Except HTTPError (DB × String) :=
  match db.restaurants.find? (fun r => r.id == restaurant_id && r.is_active) with
  | none => .error ⟨404, "Restaurant not found"⟩
  | some _ =>
    let favorites' :=
      if db.favorites.any (fun f =>
          f.user_id == user_id && f.restaurant_id == restaurant_id) then
        db.favorites
      else db.favorites ++ [⟨user_id, restaurant_id⟩]
    .ok ({ db with favorites := favorites' }, "Restaurant added to favorites")

/-- The two claims of a decoded JWT payload that the identity
resolver reads (src/utils/auth.py).  `sub` is stored as the string of
the user id and read back with `int(...)`; it is embedded as the id
itself. -/
structure JWTPayload where
  sub : Option Int
  role : Option String
deriving DecidableEq, Repr

/-- Embedding of `verify_token` (src/utils/auth.py) on the outcome of
`jwt.decode`: `none` models a `PyJWTError` (bad signature, malformed
token, or past expiry), which maps to HTTP 401, as does a payload
whose `sub` claim is absent. -/
def verify_token (decoded : Option JWTPayload) : Except HTTPError JWTPayload :=
  match decoded with
  | none => .error ⟨401, "Could not validate credentials"⟩
  | some payload =>
    match payload.sub with
    | none => .error ⟨401, "Could not validate credentials"⟩
    | some _ => .ok payload

/-- Embedding of `get_current_user_id` (src/utils/auth.py): `verify_token`, then
`int(payload.get("sub"))` (the `none` arm is unreachable because
`verify_token` already rejected an absent `sub`). -/
def get_current_user_id (decoded : Option JWTPayload) : Except HTTPError Int :=
  match verify_token decoded with
  | .error e => .error e
  | .ok payload =>
    match payload.sub with
    | some s => .ok s
    | none => .error ⟨401, "Could not validate credentials"⟩

/-- Embedding of `get_current_user_role` (src/utils/auth.py): `verify_token`, then
`payload.get("role")` — which is `None` when the claim is absent; no
check is made. -/
def get_current_user_role (decoded : Option JWTPayload) :
    Except HTTPError (Option String) :=
  match verify_token decoded with
  | .error e => .error e
  | .ok payload => .ok payload.role

/-- The column list of the login `SELECT` (src/routers/auth.py). -/
def login_selected_columns : List String :=
  ["id", "email", "password_hash", "full_name", "phone", "role", "is_active",
   "created_at"]

/-- The `RETURNING` column list of the register insert
(src/routers/auth.py). -/
def register_returning_columns : List String :=
  ["id", "email", "full_name", "phone", "role", "is_active", "created_at"]

/-- The column list of the `/me` `SELECT` (src/routers/auth.py). -/
def me_selected_columns : List String :=
  ["id", "email", "full_name", "phone", "role", "is_active", "created_at"]

/-- The value a `RealDictCursor` row exposes for a user column,
rendered to text (a SQL NULL renders empty). -/
def user_column_value (u : User) : String → String
  | "id" => toString u.id
  | "email" => u.email
  | "password_hash" => u.password_hash.getD ""
  | "full_name" => u.full_name
  | "phone" => u.phone.getD ""
  | "role" => u.role
  | "is_active" => toString u.is_active
  | "created_at" => toString u.created_at
  | _ => ""

/-- A `RealDictCursor` row (and the response dict built from it):
ordered key-value pairs, one per selected column. -/
def user_row_dict (cols : List String) (u : User) : List (String × String) :=
  cols.map (fun c => (c, user_column_value u c))

/-- Python `del d[k]` on the row dict. -/
def dict_del (d : List (String × String)) (k : String) : List (String × String) :=
  d.filter (fun kv => kv.1 != k)

/-- The login response: the minted token's claims, the token type and
the user dict. -/
structure LoginResponse where
  access_token_sub : Int
  access_token_role : String
  token_type : String
  user : List (String × String)
deriving DecidableEq, Repr

/-- Embedding of `login` (src/routers/auth.py): fetch the active user by email,
verify the password (`verify` stands for `bcrypt.checkpw`; a NULL
stored hash makes `verify_password` crash, surfacing as a generic
500), mint the token claims, and `del user_data["password_hash"]`
before assembling the response. -/
def login (db : DB) (verify : String → String → Bool) (email password : String) :
    Except HTTPError LoginResponse :=
  match db.users.find? (fun u => u.email == email && u.is_active) with
  | none => .error ⟨401, "Invalid email or password"⟩
  | some db_user =>
    match db_user.password_hash with
    | none => .error ⟨500, "Internal Server Error"⟩
    | some h =>
      if !(verify password h) then .error ⟨401, "Invalid email or password"⟩
      else
        .ok ⟨db_user.id, db_user.role, "bearer",
             dict_del (user_row_dict login_selected_columns db_user) "password_hash"⟩

end Menuzy

namespace Menuzy

/-- C1 (code bug): evaluating `verify_restaurant_admin` at the failing
input — restaurant 1 exists with owner 5 — shows that a
`restaurant_admin` caller targeting an existing restaurant gets a 500
server error (the `KeyError` from `restaurant[0]` on a
`RealDictCursor` row), whether the owner differs (caller 6) or is the
caller themself (caller 5), instead of the 403 Forbidden the claim —
and the handler's own 403 branch — intends.  Only an absent
restaurant (id 2) yields the 403. -/
theorem ownership_check_crashes_on_existing_restaurant :
    verify_restaurant_admin
      ⟨[], [⟨1, "R", none, "A", none, none, none, none, none, some 5, none, none, true, 0, 0⟩],
       [], [], [], []⟩ 6 "restaurant_admin" (some 1) =
      .error ⟨500, "Internal Server Error"⟩ ∧
    verify_restaurant_admin
      ⟨[], [⟨1, "R", none, "A", none, none, none, none, none, some 5, none, none, true, 0, 0⟩],
       [], [], [], []⟩ 5 "restaurant_admin" (some 1) =
      .error ⟨500, "Internal Server Error"⟩ ∧
    verify_restaurant_admin
      ⟨[], [⟨1, "R", none, "A", none, none, none, none, none, some 5, none, none, true, 0, 0⟩],
       [], [], [], []⟩ 6 "restaurant_admin" (some 2) =
      .error ⟨403, "Not authorized to manage this restaurant"⟩ := by
  refine ⟨by decide, by decide, by decide⟩

/-- C2: a `super_admin` caller passes `verify_restaurant_admin` for
every database state and every (possibly absent) target restaurant:
the ownership comparison is never applied. -/
theorem super_admin_bypasses_ownership (db : DB) (user_id : Int)
    (restaurant_id : Option Int) :
    verify_restaurant_admin db user_id "super_admin" restaurant_id =
      .ok user_id := by
  unfold verify_restaurant_admin
  simp

/-- Characterization of a successful `add_review`: the inserted row,
the new `reviews` table and the recomputed `restaurants` table. -/
theorem add_review_ok {db : DB} {rid uid : Int} {rc : ReviewCreate} {nid : Int}
    {db' : DB} {rv : Review}
    (h : add_review db rid uid rc nid = .ok (db', rv)) :
    rv = ⟨nid, rid, uid, rc.rating, rc.comment⟩ ∧
    db'.reviews = db.reviews ++ [rv] ∧
    db'.restaurants = db.restaurants.map (recompute_rating rid (db.reviews ++ [rv])) ∧
    db'.menu_categories = db.menu_categories := by
  unfold add_review at h
  split at h
  · exact absurd h (by simp)
  · split at h
    · exact absurd h (by simp)
    · split at h
      · exact absurd h (by simp)
      · simp only [Except.ok.injEq, Prod.mk.injEq] at h
        obtain ⟨hdb, hrv⟩ := h
        subst hdb
        subst hrv
        exact ⟨rfl, rfl, rfl, rfl⟩

/-- Every row of the recomputed `restaurants` table whose id is the
reviewed restaurant carries the recomputed aggregate. -/
theorem recompute_rating_mem {rid : Int} {reviews : List Review} {l : List Restaurant}
    {r' : Restaurant} (hmem : r' ∈ l.map (recompute_rating rid reviews))
    (hid : r'.id = rid) :
    r'.rating = round2 (avg_rating (reviews.filter (fun rv => rv.restaurant_id == rid))) ∧
    r'.total_reviews = ((reviews.filter (fun rv => rv.restaurant_id == rid)).length : Int) := by
  obtain ⟨r, hr, rfl⟩ := List.mem_map.1 hmem
  by_cases h : r.id = rid
  · unfold recompute_rating
    simp [h]
  · unfold recompute_rating at hid
    simp [h] at hid

/-- The reviews a successful sequence of creations leaves on the
restaurant, and the aggregate invariant the final state satisfies. -/
theorem add_review_seq_ok {rid : Int} :
    ∀ (entries : List (Int × ReviewCreate × Int)) (db db' : DB),
      add_review_seq rid db entries = .ok db' →
      ((db'.reviews.filter (fun rv => rv.restaurant_id == rid)).map
          (fun rv => (rv.rating : ℚ)) =
        (db.reviews.filter (fun rv => rv.restaurant_id == rid)).map
          (fun rv => (rv.rating : ℚ)) ++ entries.map (fun e => (e.2.1.rating : ℚ))) ∧
      (entries ≠ [] → ∀ r' ∈ db'.restaurants, r'.id = rid →
        r'.rating = round2 (avg_rating
          (db'.reviews.filter (fun rv => rv.restaurant_id == rid))) ∧
        r'.total_reviews =
          ((db'.reviews.filter (fun rv => rv.restaurant_id == rid)).length : Int)) := by
  intro entries
  induction entries with
  | nil =>
    intro db db' h
    unfold add_review_seq at h
    simp only [Except.ok.injEq] at h
    subst h
    exact ⟨by simp, by simp⟩
  | cons e rest ih =>
    intro db db' h
    obtain ⟨uid, rc, nid⟩ := e
    unfold add_review_seq at h
    cases hstep : add_review db rid uid rc nid with
    | error err => rw [hstep] at h; exact absurd h (by simp)
    | ok p =>
      rw [hstep] at h
      obtain ⟨db1, rv⟩ := p
      obtain ⟨hrv, hrev, hrest, -⟩ := add_review_ok hstep
      have hfilter : db1.reviews.filter (fun x => x.restaurant_id == rid) =
          db.reviews.filter (fun x => x.restaurant_id == rid) ++ [rv] := by
        rw [hrev, List.filter_append]
        simp [hrv]
      cases rest with
      | nil =>
        unfold add_review_seq at h
        simp only [Except.ok.injEq] at h
        subst h
        refine ⟨by simp [hfilter, hrv], fun _ r' hmem hid => ?_⟩
        rw [hrest] at hmem
        have := recompute_rating_mem hmem hid
        rw [← hrev] at this
        exact this
      | cons e2 rest2 =>
        obtain ⟨h1, h2⟩ := ih db1 db' h
        refine ⟨?_, fun _ => h2 (by simp)⟩
        rw [h1, hfilter]
        simp [hrv]

/-- C4: after any sequence of `N ≥ 1` successful review creations with
ratings `r1..rN` on a restaurant that starts with no reviews — in any
insertion order — the stored aggregate rating of that restaurant
equals the mean of `r1..rN` rounded to two decimal places and the
stored review count equals `N`.  Each recomputation is executed inside
the same `add_review` unit of work as its insert by construction. -/
theorem review_aggregate_mean_and_count (db db' : DB) (rid : Int)
    (entries : List (Int × ReviewCreate × Int))
    (h0 : db.reviews.filter (fun rv => rv.restaurant_id == rid) = [])
    (hne : entries ≠ [])
    (hseq : add_review_seq rid db entries = .ok db')
    (r' : Restaurant) (hmem : r' ∈ db'.restaurants) (hid : r'.id = rid) :
    r'.rating =
      round2 ((entries.map (fun e => (e.2.1.rating : ℚ))).sum / entries.length) ∧
    r'.total_reviews = (entries.length : Int) := by
  obtain ⟨h1, h2⟩ := add_review_seq_ok entries db db' hseq
  rw [h0] at h1
  simp only [List.map_nil, List.nil_append] at h1
  have hlen : (db'.reviews.filter (fun rv => rv.restaurant_id == rid)).length =
      entries.length := by
    have := congrArg List.length h1
    simpa using this
  obtain ⟨hr, hc⟩ := h2 hne r' hmem hid
  refine ⟨?_, by rw [hc, hlen]⟩
  rw [hr]
  unfold avg_rating
  rw [h1, hlen]

/-- Witness for C4: two reviews with ratings 5 and 4 on a fresh
restaurant leave aggregate `round2 (9/2) = 4.5` and count 2. -/
theorem review_aggregate_mean_and_count_witness :
    c4_row.rating =
      round2 ((c4_entries.map (fun e => (e.2.1.rating : ℚ))).sum / c4_entries.length) ∧
    c4_row.total_reviews = (c4_entries.length : Int) :=
  review_aggregate_mean_and_count c4_db c4_result 1 c4_entries (by decide) (by decide)
    (by
      have h1 : add_review c4_db 1 7 ⟨5, none⟩ 1 = Except.ok (c4_mid, ⟨1, 1, 7, 5, none⟩) := by
        norm_num +decide [add_review, c4_db, c4_mid, recompute_rating, avg_rating, round2,
          List.find?, List.filter]
      have h2 : add_review c4_mid 1 8 ⟨4, none⟩ 2 = Except.ok (c4_result, ⟨2, 1, 8, 4, none⟩) := by
        norm_num +decide [add_review, c4_mid, c4_result, recompute_rating, avg_rating, round2,
          List.find?, List.filter]
      simp [add_review_seq, c4_entries, h1, h2])
    c4_row (by exact List.Mem.head _) (by decide)

/-- C3 (amended): a second review-create for the same
`(restaurant, user)` pair fails with HTTP 400 ("You have already
reviewed this restaurant"); since the handler aborts before the
insert, no review row is added and the stored aggregate rating and
count are untouched. -/
theorem duplicate_review_rejected (db : DB) (rid uid : Int) (rc : ReviewCreate) (nid : Int)
    (hrest : (db.restaurants.find? (fun r => r.id == rid && r.is_active)).isSome)
    (hdup : (db.reviews.find? (fun rv =>
      rv.restaurant_id == rid && rv.user_id == uid)).isSome) :
    add_review db rid uid rc nid =
      .error ⟨400, "You have already reviewed this restaurant"⟩ := by
  unfold add_review
  obtain ⟨r0, hr0⟩ := Option.isSome_iff_exists.1 hrest
  rw [hr0]
  simp [hdup]

/-- Witness for C3's amended statement: user 7 reviewing restaurant 1
again in `c4_result` is rejected with the duplicate error. -/
theorem duplicate_review_rejected_witness :
    add_review c4_result 1 7 ⟨3, none⟩ 3 =
      .error ⟨400, "You have already reviewed this restaurant"⟩ :=
  duplicate_review_rejected c4_result 1 7 ⟨3, none⟩ 3 (by decide) (by decide)

/-- Half-angle identity used to relate the two distance formulas. -/
theorem sin_half_sq (x : ℝ) : Real.sin (x / 2) ^ 2 = (1 - Real.cos x) / 2 := by
  have h := Real.cos_two_mul (x / 2)
  have h2 : 2 * (x / 2) = x := by ring
  rw [h2] at h
  have h3 := Real.sin_sq_add_cos_sq (x / 2)
  linarith

/-- The argument of the SQL `acos` is the cosine of the central angle
between two points of the unit sphere, hence lies in `[-1, 1]`. -/
theorem cos_central_angle_mem (a b t : ℝ) (ht1 : -1 ≤ t) (ht2 : t ≤ 1) :
    -1 ≤ Real.cos a * Real.cos b * t + Real.sin a * Real.sin b ∧
    Real.cos a * Real.cos b * t + Real.sin a * Real.sin b ≤ 1 := by
  have hA1 := Real.neg_one_le_cos (a - b)
  have hA2 := Real.cos_le_one (a - b)
  have hB1 := Real.neg_one_le_cos (a + b)
  have hB2 := Real.cos_le_one (a + b)
  have hsub := Real.cos_sub a b
  have hadd := Real.cos_add a b
  constructor <;> nlinarith [mul_nonneg (by linarith : (0:ℝ) ≤ 1 + t) (by linarith : (0:ℝ) ≤ 1 - Real.cos (a - b)),
    mul_nonneg (by linarith : (0:ℝ) ≤ 1 - t) (by linarith : (0:ℝ) ≤ 1 - Real.cos (a + b)),
    mul_nonneg (by linarith : (0:ℝ) ≤ 1 + t) (by linarith : (0:ℝ) ≤ 1 + Real.cos (a - b)),
    mul_nonneg (by linarith : (0:ℝ) ≤ 1 - t) (by linarith : (0:ℝ) ≤ 1 + Real.cos (a + b))]

/-- For `x ∈ [-1, 1]`, `arccos x = 2 * arcsin (sqrt ((1 - x) / 2))`. -/
theorem arccos_eq_two_arcsin_sqrt {x : ℝ} (h1 : -1 ≤ x) (h2 : x ≤ 1) :
    Real.arccos x = 2 * Real.arcsin (Real.sqrt ((1 - x) / 2)) := by
  have hu0 : 0 ≤ (1 - x) / 2 := by linarith
  have hu1 : (1 - x) / 2 ≤ 1 := by linarith
  have hs0 : 0 ≤ Real.sqrt ((1 - x) / 2) := Real.sqrt_nonneg _
  have hs1 : Real.sqrt ((1 - x) / 2) ≤ 1 := Real.sqrt_le_one.2 hu1
  have hsin : Real.sin (Real.arcsin (Real.sqrt ((1 - x) / 2))) = Real.sqrt ((1 - x) / 2) :=
    Real.sin_arcsin (by linarith) hs1
  have hcos : Real.cos (2 * Real.arcsin (Real.sqrt ((1 - x) / 2))) = x := by
    rw [Real.cos_two_mul', hsin, Real.cos_sq', hsin, Real.sq_sqrt hu0]
    ring
  have ha0 : 0 ≤ Real.arcsin (Real.sqrt ((1 - x) / 2)) := Real.arcsin_nonneg.2 hs0
  have ha1 : Real.arcsin (Real.sqrt ((1 - x) / 2)) ≤ Real.pi / 2 :=
    Real.arcsin_le_pi_div_two _
  calc Real.arccos x
      = Real.arccos (Real.cos (2 * Real.arcsin (Real.sqrt ((1 - x) / 2)))) := by rw [hcos]
    _ = 2 * Real.arcsin (Real.sqrt ((1 - x) / 2)) :=
        Real.arccos_cos (by linarith) (by linarith)

/-- Over ideal reals, the SQL's spherical-law-of-cosines expression is
exactly the haversine great-circle distance the spec names. -/
theorem sql_distance_eq_haversine (lat lon rlat rlon : ℝ) :
    sql_distance lat lon rlat rlon = spec_haversine_distance lat lon rlat rlon := by
  unfold sql_distance spec_haversine_distance
  have hX := cos_central_angle_mem (radians lat) (radians rlat)
    (Real.cos (radians rlon - radians lon))
    (Real.neg_one_le_cos _) (Real.cos_le_one _)
  have hinner : Real.sin ((radians rlat - radians lat) / 2) ^ 2 +
      Real.cos (radians lat) * Real.cos (radians rlat) *
        Real.sin ((radians rlon - radians lon) / 2) ^ 2 =
      (1 - (Real.cos (radians lat) * Real.cos (radians rlat) *
        Real.cos (radians rlon - radians lon) +
        Real.sin (radians lat) * Real.sin (radians rlat))) / 2 := by
    rw [sin_half_sq, sin_half_sq, Real.cos_sub]
    ring
  rw [hinner, arccos_eq_two_arcsin_sqrt hX.1 hX.2]
  ring

/-- Properties of the query the nearby-search source text attempts:
every row of the intended result set is active, has stored
coordinates, and lies within the requested radius of the query point
by haversine great-circle distance (Earth radius 6371 km); the rows
come sorted ascending by that distance; at most `limit` rows appear;
rows with a null coordinate never appear.  This documents that the
spec describes the query's intent; the executed query itself is
rejected by PostgreSQL (see `nearby_search_always_errors`). -/
theorem intended_nearby_query_spec (db : DB) (latitude longitude radius : ℝ)
    (category_id : Option Int) (limit : Nat) :
    (∀ p ∈ intended_nearby_query db latitude longitude radius category_id limit,
      p.1.is_active = true ∧
      ∃ rlat rlon : ℚ, p.1.latitude = some rlat ∧ p.1.longitude = some rlon ∧
        p.2 = spec_haversine_distance latitude longitude (rlat : ℝ) (rlon : ℝ) ∧
        p.2 ≤ radius) ∧
    List.Pairwise (fun a b : Restaurant × ℝ => a.2 ≤ b.2)
      (intended_nearby_query db latitude longitude radius category_id limit) ∧
    (intended_nearby_query db latitude longitude radius category_id limit).length ≤
      limit := by
  refine ⟨?_, ?_, ?_⟩
  · intro p hp
    unfold intended_nearby_query at hp
    have hp2 := List.take_subset _ _ hp
    rw [(List.mergeSort_perm _ _).mem_iff] at hp2
    rw [List.mem_filter] at hp2
    obtain ⟨hmem, hrad⟩ := hp2
    have hrad' : p.2 ≤ radius := of_decide_eq_true hrad
    unfold nearby_with_distance at hmem
    rw [List.mem_filterMap] at hmem
    obtain ⟨r, -, hr⟩ := hmem
    cases hlat : r.latitude with
    | none => rw [hlat] at hr; exact absurd hr (by simp)
    | some rlat =>
      cases hlon : r.longitude with
      | none => rw [hlat, hlon] at hr; exact absurd hr (by simp)
      | some rlon =>
        rw [hlat, hlon] at hr
        by_cases hcond : (r.is_active && category_filter_matches category_id r) = true
        · simp only [hcond, if_true, Option.some.injEq] at hr
          subst hr
          rw [Bool.and_eq_true] at hcond
          refine ⟨hcond.1, rlat, rlon, hlat, hlon, ?_, hrad'⟩
          exact sql_distance_eq_haversine latitude longitude (rlat : ℝ) (rlon : ℝ)
        · simp only [hcond, if_false] at hr
          exact absurd hr (by simp)
  · unfold intended_nearby_query
    have hsorted := @List.sorted_mergeSort (Restaurant × ℝ)
      (fun a b => decide (a.2 ≤ b.2))
      (fun a b c hab hbc => by
        have h1 : a.2 ≤ b.2 := of_decide_eq_true hab
        have h2 : b.2 ≤ c.2 := of_decide_eq_true hbc
        exact decide_eq_true (le_trans h1 h2))
      (fun a b => by
        rcases le_total a.2 b.2 with h | h <;> simp [decide_eq_true h])
      ((nearby_with_distance db latitude longitude category_id).filter
        (fun p => decide (p.2 ≤ radius)))
    have hpair : List.Pairwise (fun a b : Restaurant × ℝ => a.2 ≤ b.2)
        (((nearby_with_distance db latitude longitude category_id).filter
          (fun p => decide (p.2 ≤ radius))).mergeSort
            (fun a b => decide (a.2 ≤ b.2))) :=
      hsorted.imp (fun h => of_decide_eq_true h)
    exact hpair.sublist (List.take_sublist _ _)
  · unfold intended_nearby_query
    exact List.length_take_le _ _

/-- C5 (code bug): the nearby-search handler never returns a result
set: its query is invalid PostgreSQL (the `HAVING distance <= %s`
clause references the SELECT output alias `distance`, which `HAVING`
cannot see), so every call — any coordinates, radius, category filter,
limit and database state — fails with a 500 server error instead of
the filtered, distance-sorted row list the claim describes. -/
theorem nearby_search_always_errors (db : DB) (latitude longitude radius : ℝ)
    (category_id : Option Int) (limit : Nat) :
    get_nearby_restaurants db latitude longitude radius category_id limit =
      .error ⟨500, "Internal Server Error"⟩ := rfl

/-- C6: creating a menu item whose `menu_category_id` names a menu
category of a different restaurant than the caller's owned restaurant
fails with HTTP 400 "Invalid menu category"; the error aborts the
handler before the insert, so no menu item row is created. -/
theorem cross_restaurant_menu_category_rejected (db : DB) (user_id : Int)
    (mi : MenuItemCreate) (new_id : Int) (rest : Restaurant) (mc : MenuCategory)
    (hrest : db.restaurants.find? (fun r => r.owner_id == some user_id) = some rest)
    (hmc : mc ∈ db.menu_categories) (hmcid : mc.id = mi.menu_category_id)
    (hother : mc.restaurant_id ≠ rest.id)
    (huniq : ∀ mc' ∈ db.menu_categories, mc'.id = mi.menu_category_id →
      mc'.restaurant_id ≠ rest.id) :
    create_menu_item db user_id "restaurant_admin" mi new_id =
      .error ⟨400, "Invalid menu category"⟩ := by
  unfold create_menu_item
  have hverify : verify_restaurant_admin db user_id "restaurant_admin" none =
      .ok user_id := by
    unfold verify_restaurant_admin int_truthy
    simp
  rw [hverify]
  dsimp only
  rw [hrest]
  dsimp only
  have hfind : db.menu_categories.find? (fun mc' =>
      mc'.id == mi.menu_category_id && mc'.restaurant_id == rest.id) = none := by
    rw [List.find?_eq_none]
    intro x hx
    simp only [Bool.and_eq_true, beq_iff_eq, not_and]
    exact fun hid => huniq x hx hid
  rw [hfind]

/-- Witness for C6: admin 5 owns restaurant 1; menu category 3
belongs to restaurant 2; creating an item under category 3 is
rejected. -/
theorem cross_restaurant_menu_category_rejected_witness :
    create_menu_item
      ⟨[], [⟨1, "R1", none, "A1", none, none, none, none, none, some 5, none, none, true, 0, 0⟩,
            ⟨2, "R2", none, "A2", none, none, none, none, none, some 6, none, none, true, 0, 0⟩],
       [⟨3, 2, "Mains", 0, true⟩], [], [], []⟩
      5 "restaurant_admin" ⟨3, "Dish", none, "10.00", none, false, false, false, [], [], 0⟩ 1 =
      .error ⟨400, "Invalid menu category"⟩ :=
  cross_restaurant_menu_category_rejected
    ⟨[], [⟨1, "R1", none, "A1", none, none, none, none, none, some 5, none, none, true, 0, 0⟩,
          ⟨2, "R2", none, "A2", none, none, none, none, none, some 6, none, none, true, 0, 0⟩],
     [⟨3, 2, "Mains", 0, true⟩], [], [], []⟩
    5 ⟨3, "Dish", none, "10.00", none, false, false, false, [], [], 0⟩ 1
    ⟨1, "R1", none, "A1", none, none, none, none, none, some 5, none, none, true, 0, 0⟩
    ⟨3, 2, "Mains", 0, true⟩
    (by decide) (by decide) (by decide) (by decide) (by decide)

/-- C7: a partial update whose effective field set is empty — every
field omitted or null — fails with HTTP 400 "No fields to update" and
performs no write, both for the admin menu-item update and for the
super-admin restaurant update. -/
theorem empty_partial_update_rejected :
    (∀ (db : DB) (user_id item_id : Int) (rest : Restaurant) (it : MenuItem),
      db.restaurants.find? (fun r => r.owner_id == some user_id) = some rest →
      db.menu_items.find? (fun x => x.id == item_id && x.restaurant_id == rest.id) =
        some it →
      update_menu_item db user_id "restaurant_admin" item_id
        ⟨none, none, none, none, none, none, none, none, none, none, none, none⟩ =
        .error ⟨400, "No fields to update"⟩) ∧
    (∀ (db : DB) (restaurant_id : Int),
      update_restaurant db "super_admin" restaurant_id
        ⟨none, none, none, none, none, none, none, none, none, none⟩ =
        .error ⟨400, "No fields to update"⟩) := by
  constructor
  · intro db user_id item_id rest it hrest hit
    unfold update_menu_item
    have hverify : verify_restaurant_admin db user_id "restaurant_admin" none =
        .ok user_id := by
      unfold verify_restaurant_admin int_truthy
      simp
    rw [hverify]
    dsimp only
    rw [hrest]
    dsimp only
    rw [hit]
    dsimp only
    simp [menu_item_update_fields, opt_set_clause]
  · intro db restaurant_id
    unfold update_restaurant verify_super_admin
    simp [restaurant_update_fields, opt_set_clause]

/-- Witness for C7: both empty partial updates rejected on a concrete
state (admin 5 owning restaurant 1 with menu item 10). -/
theorem empty_partial_update_rejected_witness :
    update_menu_item
      ⟨[], [⟨1, "R1", none, "A1", none, none, none, none, none, some 5, none, none, true, 0, 0⟩],
       [⟨3, 1, "Mains", 0, true⟩],
       [⟨10, 1, 3, "Dish", none, "10.00", none, false, false, false, [], [], true, 0⟩],
       [], []⟩
      5 "restaurant_admin" 10
      ⟨none, none, none, none, none, none, none, none, none, none, none, none⟩ =
      .error ⟨400, "No fields to update"⟩ ∧
    update_restaurant
      ⟨[], [⟨1, "R1", none, "A1", none, none, none, none, none, some 5, none, none, true, 0, 0⟩],
       [], [], [], []⟩
      "super_admin" 1 ⟨none, none, none, none, none, none, none, none, none, none⟩ =
      .error ⟨400, "No fields to update"⟩ :=
  ⟨empty_partial_update_rejected.1
      ⟨[], [⟨1, "R1", none, "A1", none, none, none, none, none, some 5, none, none, true, 0, 0⟩],
       [⟨3, 1, "Mains", 0, true⟩],
       [⟨10, 1, 3, "Dish", none, "10.00", none, false, false, false, [], [], true, 0⟩],
       [], []⟩
      5 10
      ⟨1, "R1", none, "A1", none, none, none, none, none, some 5, none, none, true, 0, 0⟩
      ⟨10, 1, 3, "Dish", none, "10.00", none, false, false, false, [], [], true, 0⟩
      (by decide) (by decide),
   empty_partial_update_rejected.2
      ⟨[], [⟨1, "R1", none, "A1", none, none, none, none, none, some 5, none, none, true, 0, 0⟩],
       [], [], [], []⟩
      1⟩

/-- Counterexample to C3 as stated: the duplicate-review failure is
HTTP 400 — the very status code the code uses for its InvalidInput
failures such as the empty partial update — not a distinct 409
Conflict signal. -/
theorem duplicate_review_same_status_as_invalid_input :
    add_review c4_result 1 8 ⟨5, none⟩ 9 =
      .error ⟨400, "You have already reviewed this restaurant"⟩ ∧
    update_restaurant c4_result "super_admin" 1
      ⟨none, none, none, none, none, none, none, none, none, none⟩ =
      .error ⟨400, "No fields to update"⟩ ∧
    (400 : Nat) ≠ 409 := by
  refine ⟨?_, ?_, by decide⟩
  · unfold add_review
    simp [c4_result, List.find?]
  · unfold update_restaurant verify_super_admin
    simp [restaurant_update_fields, opt_set_clause]

/-- C8: favorite add is idempotent: with the restaurant active and
the uniqueness constraint holding, the first add succeeds, the second
add succeeds without changing the state, and exactly one favorite row
for the pair remains. -/
theorem favorite_add_idempotent (db : DB) (user_id restaurant_id : Int)
    (hrest : (db.restaurants.find? (fun r =>
      r.id == restaurant_id && r.is_active)).isSome)
    (huniq : (db.favorites.filter (fun f =>
      f.user_id == user_id && f.restaurant_id == restaurant_id)).length ≤ 1) :
    ∃ db1 : DB,
      add_to_favorites db user_id restaurant_id =
        .ok (db1, "Restaurant added to favorites") ∧
      add_to_favorites db1 user_id restaurant_id =
        .ok (db1, "Restaurant added to favorites") ∧
      (db1.favorites.filter (fun f =>
        f.user_id == user_id && f.restaurant_id == restaurant_id)).length = 1 := by
  obtain ⟨r0, hr0⟩ := Option.isSome_iff_exists.1 hrest
  by_cases hany : db.favorites.any (fun f =>
      f.user_id == user_id && f.restaurant_id == restaurant_id) = true
  · refine ⟨db, ?_, ?_, ?_⟩
    · unfold add_to_favorites
      rw [hr0]
      simp [hany]
    · unfold add_to_favorites
      rw [hr0]
      simp [hany]
    · have hlen : 0 < (db.favorites.filter (fun f =>
          f.user_id == user_id && f.restaurant_id == restaurant_id)).length := by
        rw [List.any_eq_true] at hany
        obtain ⟨f, hf, hpf⟩ := hany
        have hmemf : f ∈ db.favorites.filter (fun x =>
            x.user_id == user_id && x.restaurant_id == restaurant_id) :=
          List.mem_filter.2 ⟨hf, hpf⟩
        exact List.length_pos.2 (List.ne_nil_of_mem hmemf)
      omega
  · refine ⟨{ db with favorites := db.favorites ++ [⟨user_id, restaurant_id⟩] }, ?_, ?_, ?_⟩
    · unfold add_to_favorites
      rw [hr0]
      simp [hany]
    · unfold add_to_favorites
      rw [hr0]
      have hany2 : (db.favorites ++ [(⟨user_id, restaurant_id⟩ : Favorite)]).any (fun f =>
          f.user_id == user_id && f.restaurant_id == restaurant_id) = true := by
        rw [List.any_eq_true]
        exact ⟨⟨user_id, restaurant_id⟩, by simp, by simp⟩
      simp [hany2]
    · have hnil : db.favorites.filter (fun f =>
          f.user_id == user_id && f.restaurant_id == restaurant_id) = [] := by
        rw [List.filter_eq_nil_iff]
        intro f hf
        intro hpf
        exact hany (List.any_eq_true.2 ⟨f, hf, hpf⟩)
      simp [List.filter_append, hnil]

/-- Witness for C8: user 7 adds restaurant 1 twice starting from no
favorites; one row remains and both calls succeed. -/
theorem favorite_add_idempotent_witness :
    ∃ db1 : DB,
      add_to_favorites
        ⟨[], [⟨1, "R", none, "A", none, none, none, none, none, some 5, none, none, true, 0, 0⟩],
         [], [], [], []⟩ 7 1 =
        .ok (db1, "Restaurant added to favorites") ∧
      add_to_favorites db1 7 1 = .ok (db1, "Restaurant added to favorites") ∧
      (db1.favorites.filter (fun f => f.user_id == 7 && f.restaurant_id == 1)).length = 1 :=
  favorite_add_idempotent
    ⟨[], [⟨1, "R", none, "A", none, none, none, none, none, some 5, none, none, true, 0, 0⟩],
     [], [], [], []⟩ 7 1 (by decide) (by decide)

/-- C9 (amended): identity resolution fails with 401 Unauthenticated
when the token is invalid/expired or its subject claim is absent —
but the role claim is never validated: a valid token carrying a
subject and no role resolves successfully to an absent role. -/
theorem token_identity_resolution (decoded : Option JWTPayload) :
    (decoded = none →
      get_current_user_id decoded = .error ⟨401, "Could not validate credentials"⟩ ∧
      get_current_user_role decoded = .error ⟨401, "Could not validate credentials"⟩) ∧
    (∀ p, decoded = some p → p.sub = none →
      get_current_user_id decoded = .error ⟨401, "Could not validate credentials"⟩ ∧
      get_current_user_role decoded = .error ⟨401, "Could not validate credentials"⟩) ∧
    (∀ p s, decoded = some p → p.sub = some s →
      get_current_user_id decoded = .ok s ∧
      get_current_user_role decoded = .ok p.role) := by
  refine ⟨?_, ?_, ?_⟩
  · rintro rfl
    exact ⟨rfl, rfl⟩
  · rintro p rfl hsub
    unfold get_current_user_id get_current_user_role verify_token
    dsimp only
    rw [hsub]
    exact ⟨rfl, rfl⟩
  · rintro p s rfl hsub
    unfold get_current_user_id get_current_user_role verify_token
    simp [hsub]

/-- Witness for C9's amended statement: a decoded payload with
subject 1 and no role claim resolves to id 1 and an absent role. -/
theorem token_identity_resolution_witness :
    get_current_user_id (some ⟨some 1, none⟩) = .ok 1 ∧
    get_current_user_role (some ⟨some 1, none⟩) = .ok none :=
  (token_identity_resolution (some ⟨some 1, none⟩)).2.2 ⟨some 1, none⟩ 1 rfl rfl

/-- Counterexample to C9 as stated: a structurally valid, unexpired
token with a subject but no role claim is not rejected with
Unauthenticated — resolution succeeds and yields an identity with a
missing role. -/
theorem token_missing_role_not_rejected :
    get_current_user_role (some ⟨some 1, none⟩) = .ok none ∧
    (Except.ok (none : Option String) ≠
      (Except.error ⟨401, "Could not validate credentials"⟩ :
        Except HTTPError (Option String))) := by
  exact ⟨rfl, by decide⟩

/-- C10: a successful login response never carries the stored
password hash (the `password_hash` key is deleted from the fetched
row before the response is assembled), and the register/me queries
select only non-secret columns. -/
theorem login_response_has_no_password_hash (db : DB)
    (verify : String → String → Bool) (email password : String)
    (res : LoginResponse) (h : login db verify email password = .ok res) :
    "password_hash" ∉ res.user.map Prod.fst ∧
    "password_hash" ∉ register_returning_columns ∧
    "password_hash" ∉ me_selected_columns := by
  refine ⟨?_, by decide, by decide⟩
  unfold login at h
  split at h
  · exact absurd h (by simp)
  · split at h
    · exact absurd h (by simp)
    · split at h
      · exact absurd h (by simp)
      · simp only [Except.ok.injEq] at h
        subst h
        intro hmem
        simp only [LoginResponse.user] at hmem
        rw [List.mem_map] at hmem
        obtain ⟨kv, hkv, hfst⟩ := hmem
        unfold dict_del at hkv
        rw [List.mem_filter] at hkv
        have := hkv.2
        rw [hfst] at this
        simp at this

/-- Witness for C10: a concrete successful login whose response dict
has no `password_hash` key. -/
theorem login_response_has_no_password_hash_witness :
    "password_hash" ∉
      (LoginResponse.mk 5 "customer" "bearer"
        [("id", "5"), ("email", "a@x.com"), ("full_name", "Alice"), ("phone", ""),
         ("role", "customer"), ("is_active", "true"), ("created_at", "0")]).user.map
        Prod.fst ∧
    "password_hash" ∉ register_returning_columns ∧
    "password_hash" ∉ me_selected_columns :=
  login_response_has_no_password_hash
    ⟨[⟨5, "a@x.com", some "hash", "Alice", none, "customer", true, 0⟩], [], [], [], [], []⟩
    (fun _ _ => true) "a@x.com" "pw"
    (LoginResponse.mk 5 "customer" "bearer"
      [("id", "5"), ("email", "a@x.com"), ("full_name", "Alice"), ("phone", ""),
       ("role", "customer"), ("is_active", "true"), ("created_at", "0")])
    (by decide)

end Menuzy
